import Mathlib

/-!
Verification of the Upload Flow Controller of
src/frontend/static/js/main.js (Smart Finance Automator).

The JavaScript source is embedded shallowly: the upload controller's
DOM-visible state becomes an explicit record, the synchronous prefix of
each handler becomes a pure state transformer, and the asynchronous
continuations (fetch settlement, progress-interval callbacks) become
events of a small step function. Numeric work is exact: the counts the
code manipulates are natural numbers and Math.floor(n * 0.8) on a count
n is 4 * n / 5 in exact arithmetic.

Assumptions of the embedding, stated once: the upload page provides the
DOM elements the handlers look up unconditionally (dropZone, fileInput,
submitBtn, uploadForm, processingStatus, filePreview, processingResults
and the progress bar), as the shipped templates do; checkbox elements
are modelled as an explicit partial map because the code guards each
lookup with an existence test.
-/

namespace SmartFinance

/-- A candidate file as the browser hands it to the handlers: name, size
in bytes, and declared MIME type (main.js uses file.name, file.size,
file.type). -/
structure File where
  name : String
  size : Nat
  type : String
deriving DecidableEq

/-- Severity of a toast, the second argument of utils.showToast. -/
inductive Severity
  | info
  | success
  | warning
  | danger
deriving DecidableEq

/-- A user-visible toast: message text and severity (utils.showToast,
main.js 38-59). -/
structure Toast where
  message : String
  severity : Severity
deriving DecidableEq

/-- The allowed MIME types of upload.validateFile (main.js 341). -/
def allowedTypes : List String := ["text/plain", "text/csv", "application/json"]

/-- The size ceiling of upload.validateFile (main.js 342): 16 MiB. -/
def maxSize : Nat := 16 * 1024 * 1024

/-- Whether the first list is a prefix of the second, on characters. -/
def chStarts : List Char → List Char → Bool
  | [], _ => true
  | _ :: _, [] => false
  | p :: ps, c :: cs => (p = c) && chStarts ps cs

/-- Whether the first list is a suffix of the second, on characters. -/
def chEnds (pat cs : List Char) : Bool :=
  chStarts pat.reverse cs.reverse

/-- The extension test of upload.validateFile (main.js 344): the regex
match of the file name against dot followed by txt, csv or json at the
end of the name, case-insensitively. -/
def extMatch (name : String) : Bool :=
  let l := name.toList.map Char.toLower
  chEnds ".txt".toList l || chEnds ".csv".toList l || chEnds ".json".toList l

/-- upload.validateFile (main.js 340-355): the returned Bool together
with the warning toasts shown during the call, in order. The first
failing check wins: a type-and-extension failure returns before the
size check runs. -/
def validateFile (f : File) : Bool × List Toast :=
  if f.type ∉ allowedTypes ∧ extMatch f.name = false then
    (false, [⟨"Please select a valid file type (.txt, .csv, .json)", Severity.warning⟩])
  else if f.size > maxSize then
    (false, [⟨"File size must be less than 16MB", Severity.warning⟩])
  else
    (true, [])

/-- The display statistics written by upload.showResults
(main.js 463-469): processedCount is rendered as the matched digit
string, the derived counts are numbers, confidenceScore is a constant. -/
structure Stats where
  processedCount : String
  categorizedCount : Nat
  merchantsFound : Nat
  confidenceScore : String
deriving DecidableEq

/-- Numeric value of a digit string, as JavaScript number coercion reads
it (leading zeros allowed). -/
def digitsToNat (ds : List Char) : Nat :=
  ds.foldl (fun n c => 10 * n + (c.toNat - '0'.toNat)) 0

/-- Splits a character list into its maximal leading digit run and the
rest. -/
def takeDigits : List Char → List Char × List Char
  | [] => ([], [])
  | c :: cs =>
      if c.isDigit then
        (c :: (takeDigits cs).1, (takeDigits cs).2)
      else
        ([], c :: cs)

/-- Scan of message.match on the pattern of digits followed by the
literal text " transactions" (main.js 460). The regex engine succeeds
at the leftmost position whose maximal digit run is nonempty and is
immediately followed by " transactions"; a shorter digit run can never
succeed because the next character of the run is a digit, not a space.
Returns the captured digit run of the first match. -/
def matchTransAux : List Char → Option (List Char)
  | [] => none
  | c :: cs =>
      if (takeDigits (c :: cs)).1 ≠ [] ∧
          chStarts " transactions".toList (takeDigits (c :: cs)).2 = true then
        some (takeDigits (c :: cs)).1
      else
        matchTransAux cs

/-- The capture group of message.match on the transactions pattern, as a
string (main.js 460-461). -/
def matchTransactions (message : String) : Option String :=
  (matchTransAux message.toList).map fun ds => String.mk ds

/-- upload.showResults statistics derivation (main.js 458-469).
data.success is an optional field; the JavaScript fallback
data.success or the empty string is getD, because the only falsy string
is the empty one, on which the fallback is again the empty string.
processedCount is the captured digit string, or the string 0 when the
pattern is absent. Math.floor(n * 0.8) and Math.floor(n * 0.6) on a
count n are 4 * n / 5 and 3 * n / 5 in exact arithmetic; the theorems
below restate them through Nat.floor over the rationals. -/
def computeStats (success : Option String) : Stats :=
  { processedCount := (matchTransactions (success.getD "")).getD "0"
    categorizedCount :=
      4 * digitsToNat ((matchTransactions (success.getD "")).getD "0").toList / 5
    merchantsFound :=
      3 * digitsToNat ((matchTransactions (success.getD "")).getD "0").toList / 5
    confidenceScore := "85%" }

/-- The JSON body of the upload response, once parsed: the two fields
the handler reads, each possibly absent (main.js 405-415). -/
structure UploadResult where
  error : Option String
  success : Option String
deriving DecidableEq

/-- JavaScript truthiness of the optional string field result.error:
present and nonempty (main.js 409). -/
def truthy : Option String → Bool
  | some s => !s.isEmpty
  | none => false

/-- JavaScript string coercion of a possibly absent string field, as the
toast body renders it. -/
def jsStr : Option String → String
  | some s => s
  | none => "undefined"

/-- How the fetch of upload.handleSubmit settles: a network rejection,
or a response with an HTTP status and a body that either parses as JSON
(some fields) or does not (none, so response.json() rejects). -/
inductive TransportResult
  | netError
  | resp (status : Nat) (body : Option UploadResult)
deriving DecidableEq

/-- A value appended to the multipart FormData: the staged file or a
checkbox boolean (main.js 385-395). -/
inductive FormValue
  | fileVal (f : File)
  | boolVal (b : Bool)
deriving DecidableEq

/-- The processing option ids of upload.handleSubmit, exactly as listed
in the source (main.js 389). -/
def optionNames : List String :=
  ["autoCategories", "skipDuplicates", "extractDates", "detectMerchants"]

/-- The multipart payload of upload.handleSubmit (main.js 385-395): the
file under the field name file, then, for each option id whose checkbox
element exists, one field holding that checkbox's checked boolean. -/
def buildFormData (f : File) (checkbox : String → Option Bool) :
    List (String × FormValue) :=
  ("file", FormValue.fileVal f) ::
    optionNames.filterMap fun o => (checkbox o).map fun b => (o, FormValue.boolVal b)

/-- Checkbox lookup over an explicit page description: the list holds
the checkbox ids present in the document with their checked state. -/
def lookupCheckbox (cbs : List (String × Bool)) (o : String) : Option Bool :=
  (cbs.find? fun p => p.1 = o).map Prod.snd

/-- One progress interval created by upload.simulateProgress
(main.js 439-452): its accumulated width and whether the interval is
still scheduled (active becomes false exactly when clearInterval runs).
-/
structure Ticker where
  width : ℚ
  active : Bool
deriving DecidableEq

/-- One callback run of the interval of upload.simulateProgress
(main.js 444-451): width grows by Math.random() * 15 with the random
draw r in [0, 1); at 95 or above the width is clamped to 95 and the
interval clears itself. An already cleared interval never runs again. -/
def tickStep (r : ℚ) (t : Ticker) : Ticker :=
  if t.active then
    if t.width + r * 15 ≥ 95 then ⟨95, false⟩ else ⟨t.width + r * 15, true⟩
  else t

/-- The callback of the i-th created interval fires with draw r; an
index with no interval changes nothing. -/
def tickAt (ts : List Ticker) (i : Nat) (r : ℚ) : List Ticker :=
  ts.set i (tickStep r (ts.getD i ⟨0, false⟩))

/-- The DOM-visible state of the upload page together with the
controller's own state (upload.currentFile, main.js 270) and two history
counters for the fetches of handleSubmit: requestsFired counts every
fetch ever issued, inFlight counts those not yet settled. -/
structure AppState where
  currentFile : Option File
  fileInputValue : String
  filePreviewVisible : Bool
  submitBtnDisabled : Bool
  uploadFormVisible : Bool
  processingVisible : Bool
  resultsVisible : Bool
  stats : Option Stats
  tickers : List Ticker
  requestsFired : Nat
  inFlight : Nat
  toasts : List Toast
deriving DecidableEq

/-- The upload page as first loaded: nothing staged, submit disabled,
form visible, no request ever fired. -/
def initState : AppState :=
  { currentFile := none
    fileInputValue := ""
    filePreviewVisible := false
    submitBtnDisabled := true
    uploadFormVisible := true
    processingVisible := false
    resultsVisible := false
    stats := none
    tickers := []
    requestsFired := 0
    inFlight := 0
    toasts := [] }

/-- upload.handleFile (main.js 329-338): validate, and on failure return
with only the validation toast shown; on success stage the file, show
the preview and enable the submit button. -/
def handleFile (s : AppState) (f : File) : AppState :=
  if (validateFile f).1 then
    { s with
        toasts := s.toasts ++ (validateFile f).2
        currentFile := some f
        filePreviewVisible := true
        submitBtnDisabled := false }
  else
    { s with toasts := s.toasts ++ (validateFile f).2 }

/-- upload.showProcessingState (main.js 425-429): hide the form, show
the processing status, and start a fresh progress interval at width 0
(simulateProgress, main.js 439-452). -/
def showProcessingState (s : AppState) : AppState :=
  { s with
      uploadFormVisible := false
      processingVisible := true
      tickers := s.tickers ++ [⟨0, true⟩] }

/-- upload.hideProcessingState (main.js 431-433): hides the processing
status display. It does not touch the interval list. -/
def hideProcessingState (s : AppState) : AppState :=
  { s with processingVisible := false }

/-- upload.showUploadForm (main.js 435-437). -/
def showUploadForm (s : AppState) : AppState :=
  { s with uploadFormVisible := true }

/-- upload.showResults (main.js 454-479): derive the display statistics
from data.success and show the results panel. -/
def showResults (s : AppState) (result : UploadResult) : AppState :=
  { s with
      stats := some (computeStats result.success)
      resultsVisible := true }

/-- The synchronous prefix of upload.handleSubmit (main.js 377-403):
with no staged file, a warning toast and nothing else; with a staged
file, build the payload, show the processing state and fire the fetch.
There is no guard on an already in-flight request. Returns the new
state and the payload of the fired request, if one was fired. -/
def submitStart (s : AppState) (checkbox : String → Option Bool) :
    AppState × Option (List (String × FormValue)) :=
  match s.currentFile with
  | none =>
      ({ s with toasts := s.toasts ++ [⟨"Please select a file to upload", Severity.warning⟩] },
       none)
  | some f =>
      ({ showProcessingState s with
          tickers := (showProcessingState s).tickers
          requestsFired := s.requestsFired + 1
          inFlight := s.inFlight + 1 },
       some (buildFormData f checkbox))

/-- The catch branch of upload.handleSubmit (main.js 417-422), reached
on a network rejection and also when response.json() rejects on a body
that is not well-formed JSON: hide the processing status, show the form
again, and show the generic danger toast. -/
def failPath (s : AppState) : AppState :=
  { hideProcessingState s with
      uploadFormVisible := true
      toasts := s.toasts ++
        [⟨"An error occurred while processing your file. Please try again.", Severity.danger⟩]
      inFlight := s.inFlight - 1 }

/-- The continuation of upload.handleSubmit once the fetch settles
(main.js 405-422). The HTTP status of the response is never read: a
parsed body with a truthy error field takes the backend-error branch,
any other parsed body takes the success branch, whatever the status. -/
def submitFinish (s : AppState) (tr : TransportResult) : AppState :=
  match tr with
  | TransportResult.netError => failPath s
  | TransportResult.resp _ none => failPath s
  | TransportResult.resp _ (some result) =>
      if truthy result.error then
        { hideProcessingState s with
            toasts := s.toasts ++ [⟨jsStr result.error, Severity.danger⟩]
            uploadFormVisible := true
            inFlight := s.inFlight - 1 }
      else
        { showResults (hideProcessingState s) result with
            toasts := s.toasts ++ [⟨jsStr result.success, Severity.success⟩]
            inFlight := s.inFlight - 1 }

/-- window.clearFile (main.js 548-560): clear the file input value, hide
the file preview, disable the submit button, and clear the staged file.
No other element is touched; in particular the results panel keeps its
visibility. -/
def clearFile (s : AppState) : AppState :=
  { s with
      fileInputValue := ""
      filePreviewVisible := false
      submitBtnDisabled := true
      currentFile := none }

/-- The externally scheduled events of the upload page: a file selection
(drop or picker), a form submit with the page's checkbox description, a
run of the callback of the i-th progress interval with random draw r,
the settlement of a fetch, and the clear button. -/
inductive Event
  | selectFile (f : File)
  | submit (cbs : List (String × Bool))
  | tick (i : Nat) (r : ℚ)
  | settle (tr : TransportResult)
  | clear
deriving DecidableEq

/-- One step of the event-driven semantics: each event runs the
corresponding handler code of main.js to completion. -/
def step (s : AppState) (e : Event) : AppState :=
  match e with
  | Event.selectFile f => handleFile s f
  | Event.submit cbs => (submitStart s (lookupCheckbox cbs)).1
  | Event.tick i r => { s with tickers := tickAt s.tickers i r }
  | Event.settle tr => submitFinish s tr
  | Event.clear => clearFile s

/-- A small valid text file used by the concrete scenarios below. -/
def validTxt : File :=
  { name := "data.txt", size := 100, type := "text/plain" }

/-- The state after selecting validTxt on a fresh page. -/
def afterSelect : AppState :=
  step initState (Event.selectFile validTxt)

/-- The state after selecting validTxt and submitting once: a request is
in flight, the processing status is shown and one progress interval is
running. -/
def afterFirstSubmit : AppState :=
  step afterSelect (Event.submit [])

/-- A run in which the one in-flight request settles with a network
rejection: the controller has left Submitting. -/
def afterSettle : AppState :=
  step afterFirstSubmit (Event.settle TransportResult.netError)

/-- A state in which the results panel is showing, as after a completed
upload. -/
def resultsShownState : AppState :=
  { initState with resultsVisible := true }

/-- A page description carrying a checkbox for every option id the
specification names and every option id the code names, all checked. -/
def claimChecked : List (String × Bool) :=
  [("autoCategorize", true), ("autoCategories", true), ("skipDuplicates", true),
   ("extractDates", true), ("detectMerchants", true)]

/-! Theorems. -/

/-- Exact arithmetic floor fact: Math.floor of n * 0.8 on a natural
count n is 4 * n / 5. -/
theorem floorFourFifths (n : ℕ) : ⌊(n : ℚ) * 0.8⌋₊ = 4 * n / 5 := by
  rw [show (0.8 : ℚ) = ((4 : ℕ) : ℚ) / ((5 : ℕ) : ℚ) by norm_num]
  rw [show (n : ℚ) * (((4 : ℕ) : ℚ) / ((5 : ℕ) : ℚ)) = ((4 * n : ℕ) : ℚ) / ((5 : ℕ) : ℚ) by
    push_cast
    ring]
  rw [Nat.floor_div_nat, Nat.floor_natCast]

/-- Exact arithmetic floor fact: Math.floor of n * 0.6 on a natural
count n is 3 * n / 5. -/
theorem floorThreeFifths (n : ℕ) : ⌊(n : ℚ) * 0.6⌋₊ = 3 * n / 5 := by
  rw [show (0.6 : ℚ) = ((3 : ℕ) : ℚ) / ((5 : ℕ) : ℚ) by norm_num]
  rw [show (n : ℚ) * (((3 : ℕ) : ℚ) / ((5 : ℕ) : ℚ)) = ((3 * n : ℕ) : ℚ) / ((5 : ℕ) : ℚ) by
    push_cast
    ring]
  rw [Nat.floor_div_nat, Nat.floor_natCast]

/-- C6 (confirmed): upload.validateFile accepts a candidate exactly
when its declared MIME type is text/plain, text/csv or
application/json, or its name ends case-insensitively in .txt, .csv or
.json, and its size is at most 16 MiB; every rejected candidate gets a
warning toast. -/
theorem c6_validate_accepts_iff (f : File) :
    ((validateFile f).1 = true ↔
      (f.type ∈ allowedTypes ∨ extMatch f.name = true) ∧ f.size ≤ 16 * 1024 * 1024)
    ∧ ((validateFile f).1 = false → ∃ m, (validateFile f).2 = [⟨m, Severity.warning⟩]) := by
  constructor
  · unfold validateFile
    split_ifs with h1 h2
    · simp [h1.1, h1.2]
    · have hs : ¬ f.size ≤ 16 * 1024 * 1024 := by
        unfold maxSize at h2
        omega
      simp [hs]
    · have hor : f.type ∈ allowedTypes ∨ extMatch f.name = true := by
        by_contra hc
        push_neg at hc
        exact h1 ⟨hc.1, by simpa using hc.2⟩
      have hs : f.size ≤ 16 * 1024 * 1024 := by
        unfold maxSize at h2
        omega
      simp [hor, hs]
  · unfold validateFile
    split_ifs with h1 h2
    · exact fun _ => ⟨_, rfl⟩
    · exact fun _ => ⟨_, rfl⟩
    · simp

/-- Witness for C6 at a file with a disallowed MIME type but an allowed
extension in capitals. -/
theorem c6_validate_accepts_iff_witness :
    (validateFile { name := "report.TXT", size := 100, type := "application/octet-stream" }).1
      = true :=
  (c6_validate_accepts_iff
      { name := "report.TXT", size := 100, type := "application/octet-stream" }).1.mpr
    (by decide)

/-- C7 (confirmed): when the type or extension is allowed but the size
exceeds 16 MiB, validateFile rejects with the size-specific message;
when type and extension both fail, the type message is the one
surfaced, whatever the size; and at most one toast is shown per
attempt, the first failing check winning. -/
theorem c7_first_failing_check (f : File) :
    (((f.type ∈ allowedTypes ∨ extMatch f.name = true) ∧ f.size > 16 * 1024 * 1024) →
        validateFile f =
          (false, [⟨"File size must be less than 16MB", Severity.warning⟩]))
    ∧ ((f.type ∉ allowedTypes ∧ extMatch f.name = false) →
        validateFile f =
          (false, [⟨"Please select a valid file type (.txt, .csv, .json)", Severity.warning⟩]))
    ∧ (validateFile f).2.length ≤ 1 := by
  refine ⟨fun h => ?_, fun h => ?_, ?_⟩
  · obtain ⟨hor, hsz⟩ := h
    unfold validateFile
    split_ifs with h1 h2
    · exfalso
      rcases hor with hm | he
      · exact h1.1 hm
      · rw [h1.2] at he
        exact Bool.false_ne_true he
    · rfl
    · exfalso
      unfold maxSize at h2
      omega
  · unfold validateFile
    rw [if_pos h]
  · unfold validateFile
    split_ifs <;> simp

/-- Witness for C7 at a concrete oversized CSV file. -/
theorem c7_first_failing_check_witness :
    validateFile { name := "big.csv", size := 16 * 1024 * 1024 + 1, type := "text/csv" } =
      (false, [⟨"File size must be less than 16MB", Severity.warning⟩]) :=
  (c7_first_failing_check
      { name := "big.csv", size := 16 * 1024 * 1024 + 1, type := "text/csv" }).1
    (by decide)

/-- C8 (confirmed): handleFile with a file that fails validation
leaves the staged file, the preview and the submit button untouched,
and with a valid file replaces the staged file wholesale; currentFile
is a single optional slot, so at most one file is ever staged. -/
theorem c8_single_staged_file (s : AppState) (f : File) :
    ((validateFile f).1 = false →
        (handleFile s f).currentFile = s.currentFile
        ∧ (handleFile s f).filePreviewVisible = s.filePreviewVisible
        ∧ (handleFile s f).submitBtnDisabled = s.submitBtnDisabled)
    ∧ ((validateFile f).1 = true → (handleFile s f).currentFile = some f) := by
  constructor
  · intro h
    simp [handleFile, h]
  · intro h
    simp [handleFile, h]

/-- Witness for C8: a rejected selection leaves the staged file. -/
theorem c8_single_staged_file_witness :
    (handleFile afterSelect { name := "x.pdf", size := 10, type := "application/pdf" }).currentFile
      = afterSelect.currentFile :=
  ((c8_single_staged_file afterSelect
      { name := "x.pdf", size := 10, type := "application/pdf" }).1 (by decide)).1

/-- C5 (confirmed): on the response whose success message is
42 transactions processed, the rendered statistics are processed 42,
categorized 33, merchants 25, confidence 85%; and for every success
message in which the transactions pattern captures a digit run d with
value n, the derived counts are the floor of n * 0.8 and the floor of
n * 0.6. -/
theorem c5_derived_stats :
    computeStats (some "42 transactions processed") =
      { processedCount := "42", categorizedCount := 33, merchantsFound := 25,
        confidenceScore := "85%" }
    ∧ ∀ (msg d : String), matchTransactions msg = some d →
        (computeStats (some msg)).categorizedCount = ⌊(digitsToNat d.toList : ℚ) * 0.8⌋₊
        ∧ (computeStats (some msg)).merchantsFound = ⌊(digitsToNat d.toList : ℚ) * 0.6⌋₊ := by
  constructor
  · decide
  · intro msg d h
    refine ⟨?_, ?_⟩
    · show 4 * digitsToNat ((matchTransactions ((some msg).getD "")).getD "0").toList / 5 = _
      simp only [Option.getD_some, h]
      rw [floorFourFifths]
    · show 3 * digitsToNat ((matchTransactions ((some msg).getD "")).getD "0").toList / 5 = _
      simp only [Option.getD_some, h]
      rw [floorThreeFifths]

/-- C10 (confirmed): showResults never rejects a success message; when
the message lacks the transactions pattern, including an absent or
empty success field, the results panel still shows, with processed
count the string 0, categorized and merchants 0, and confidence 85%. -/
theorem c10_unparseable_success (s : AppState) (result : UploadResult)
    (h : matchTransactions (result.success.getD "") = none) :
    (showResults s result).resultsVisible = true
    ∧ (showResults s result).stats =
        some { processedCount := "0", categorizedCount := 0, merchantsFound := 0,
               confidenceScore := "85%" } := by
  have hstats : computeStats result.success =
      { processedCount := "0", categorizedCount := 0, merchantsFound := 0,
        confidenceScore := "85%" } := by
    unfold computeStats
    rw [h]
    decide
  refine ⟨rfl, ?_⟩
  show some (computeStats result.success) = _
  rw [hstats]

/-- Witness for C10 at a concrete response without the pattern. -/
theorem c10_unparseable_success_witness :
    (showResults initState { error := none, success := some "file processed" }).resultsVisible
      = true
    ∧ (showResults initState { error := none, success := some "file processed" }).stats =
        some { processedCount := "0", categorizedCount := 0, merchantsFound := 0,
               confidenceScore := "85%" } :=
  c10_unparseable_success initState { error := none, success := some "file processed" }
    (by decide)

/-- C1 counterexample: with validTxt staged and one request already in
flight (the controller is Submitting), a further submit call fires a
second request and changes the state, so the call is not a no-op. -/
theorem c1_counterexample :
    afterFirstSubmit.inFlight = 1
    ∧ afterFirstSubmit.processingVisible = true
    ∧ (step afterFirstSubmit (Event.submit [])).requestsFired = 2
    ∧ (step afterFirstSubmit (Event.submit [])).inFlight = 2 := by
  decide

/-- C1 (corrected): upload.handleSubmit has no guard on the Submitting
state. A submit with no staged file fires nothing and only shows a
warning toast; a submit with a staged file always fires a request,
even while one is already in flight, so re-entrant submits fire
duplicate requests. Re-entry is only mitigated by the page hiding the
form during processing. -/
theorem c1_no_reentrancy_guard (s : AppState) (cbs : List (String × Bool)) :
    (s.currentFile = none →
        (step s (Event.submit cbs)).requestsFired = s.requestsFired
        ∧ (step s (Event.submit cbs)).inFlight = s.inFlight)
    ∧ (∀ f, s.currentFile = some f →
        (step s (Event.submit cbs)).requestsFired = s.requestsFired + 1
        ∧ (step s (Event.submit cbs)).inFlight = s.inFlight + 1) := by
  constructor
  · intro h
    simp [step, submitStart, h]
  · intro f h
    simp [step, submitStart, h, showProcessingState]

/-- Witness for C1 amended at the concrete Submitting state. -/
theorem c1_no_reentrancy_guard_witness :
    (step afterFirstSubmit (Event.submit [])).requestsFired
        = afterFirstSubmit.requestsFired + 1
    ∧ (step afterFirstSubmit (Event.submit [])).inFlight = afterFirstSubmit.inFlight + 1 :=
  (c1_no_reentrancy_guard afterFirstSubmit []).2 validTxt (by decide)

/-- C2 counterexample: after the in-flight request settles with a
network rejection the controller has left Submitting (processing
hidden, nothing in flight), yet the progress interval is still
scheduled and its next callback run still advances the width: the
ticker was not canceled when the request failed. -/
theorem c2_counterexample :
    afterSettle.processingVisible = false
    ∧ afterSettle.inFlight = 0
    ∧ afterSettle.tickers = [⟨0, true⟩]
    ∧ tickAt afterSettle.tickers 0 (1 / 2) = [⟨15 / 2, true⟩]
    ∧ (⟨15 / 2, true⟩ : Ticker) ≠ ⟨0, true⟩ := by
  have h : afterSettle.tickers = [⟨0, true⟩] := by decide
  refine ⟨by decide, by decide, h, ?_, ?_⟩
  · rw [h]
    norm_num [tickAt, tickStep]
  · norm_num [Ticker.mk.injEq]

/-- C2 (corrected): the progress interval of simulateProgress is
cleared only by its own callback, exactly when the accumulated width
reaches the 95 cap; the settling of the request, whatever its outcome,
leaves every interval untouched, so the ticker can keep running after
the controller leaves Submitting. -/
theorem c2_ticker_not_canceled (s : AppState) (tr : TransportResult) (t : Ticker) (r : ℚ) :
    (submitFinish s tr).tickers = s.tickers
    ∧ ((tickStep r t).active = true ↔ t.active = true ∧ t.width + r * 15 < 95) := by
  constructor
  · cases tr with
    | netError => rfl
    | resp st body =>
        cases body with
        | none => rfl
        | some result =>
            by_cases ht : truthy result.error = true
            · simp [submitFinish, ht, showResults, hideProcessingState]
            · simp [submitFinish, ht, showResults, hideProcessingState]
  · unfold tickStep
    split_ifs with h1 h2
    · simp only [Bool.false_eq_true, false_iff, not_and]
      intro _
      exact absurd h2 ∘ not_le.mpr
    · simp [h1, not_le.mp h2]
    · simp [h1]

/-- Witness for C2 amended: a concrete settlement leaves the concrete
interval list untouched. -/
theorem c2_ticker_not_canceled_witness :
    (submitFinish afterFirstSubmit TransportResult.netError).tickers
      = afterFirstSubmit.tickers :=
  (c2_ticker_not_canceled afterFirstSubmit TransportResult.netError ⟨0, true⟩ 0).1

/-- C3 counterexample: a 500 response whose well-formed JSON body has a
success field and no error field is handled as a success: the results
panel shows and a success toast is appended, so a non-2xx response is
treated as success. -/
theorem c3_counterexample :
    (step afterFirstSubmit
        (Event.settle (TransportResult.resp 500
          (some { error := none, success := some "7 transactions processed" })))).resultsVisible
      = true
    ∧ (step afterFirstSubmit
        (Event.settle (TransportResult.resp 500
          (some { error := none, success := some "7 transactions processed" })))).toasts =
        [⟨"7 transactions processed", Severity.success⟩] := by
  decide

/-- C3 (corrected): a network rejection and a malformed JSON body both
take the failure path of the catch branch, which hides the processing
status, re-shows the form and appends the generic danger toast; but
the HTTP status is never consulted: the handling of a response is the
same for every status, so a non-2xx response with a well-formed body
lacking a truthy error field is treated as success. -/
theorem c3_failure_handling (s : AppState) (st st2 : Nat) (body : Option UploadResult) :
    submitFinish s (TransportResult.resp st none) = submitFinish s TransportResult.netError
    ∧ (submitFinish s TransportResult.netError).processingVisible = false
    ∧ (submitFinish s TransportResult.netError).uploadFormVisible = true
    ∧ (submitFinish s TransportResult.netError).toasts =
        s.toasts ++
          [⟨"An error occurred while processing your file. Please try again.",
            Severity.danger⟩]
    ∧ submitFinish s (TransportResult.resp st body)
        = submitFinish s (TransportResult.resp st2 body) := by
  refine ⟨rfl, rfl, rfl, rfl, ?_⟩
  cases body with
  | none => rfl
  | some r => rfl

/-- Witness for C3 amended at a concrete malformed-body settlement. -/
theorem c3_failure_handling_witness :
    submitFinish afterFirstSubmit (TransportResult.resp 500 none) =
      submitFinish afterFirstSubmit TransportResult.netError :=
  (c3_failure_handling afterFirstSubmit 500 0 none).1

/-- C4 counterexample: on a page carrying checkboxes for every option
id the claim names and every id the code names, the payload fields are
file, autoCategories, skipDuplicates, extractDates, detectMerchants:
no field named autoCategorize is appended, because the code reads the
id autoCategories. -/
theorem c4_counterexample :
    ((buildFormData validTxt (lookupCheckbox claimChecked)).map Prod.fst) =
      ["file", "autoCategories", "skipDuplicates", "extractDates", "detectMerchants"]
    ∧ "autoCategorize" ∉ (buildFormData validTxt (lookupCheckbox claimChecked)).map Prod.fst := by
  decide

/-- C4 (corrected): the multipart payload holds the staged file under
the field name file plus one boolean-valued field per option id whose
checkbox exists in the page, the ids being autoCategories (not
autoCategorize), skipDuplicates, extractDates and detectMerchants;
with all four checkboxes present the payload is exactly those five
fields in order. -/
theorem c4_payload_fields (f : File) (cb : String → Option Bool)
    (h : ∀ o ∈ optionNames, (cb o).isSome = true) :
    ∃ b1 b2 b3 b4 : Bool,
      buildFormData f cb =
        [("file", FormValue.fileVal f),
         ("autoCategories", FormValue.boolVal b1),
         ("skipDuplicates", FormValue.boolVal b2),
         ("extractDates", FormValue.boolVal b3),
         ("detectMerchants", FormValue.boolVal b4)] := by
  have h1 := h "autoCategories" (by simp [optionNames])
  have h2 := h "skipDuplicates" (by simp [optionNames])
  have h3 := h "extractDates" (by simp [optionNames])
  have h4 := h "detectMerchants" (by simp [optionNames])
  obtain ⟨b1, hb1⟩ := Option.isSome_iff_exists.mp h1
  obtain ⟨b2, hb2⟩ := Option.isSome_iff_exists.mp h2
  obtain ⟨b3, hb3⟩ := Option.isSome_iff_exists.mp h3
  obtain ⟨b4, hb4⟩ := Option.isSome_iff_exists.mp h4
  refine ⟨b1, b2, b3, b4, ?_⟩
  simp [buildFormData, optionNames, hb1, hb2, hb3, hb4]

/-- Witness for C4 amended on the concrete page description. -/
theorem c4_payload_fields_witness :
    ∃ b1 b2 b3 b4 : Bool,
      buildFormData validTxt (lookupCheckbox claimChecked) =
        [("file", FormValue.fileVal validTxt),
         ("autoCategories", FormValue.boolVal b1),
         ("skipDuplicates", FormValue.boolVal b2),
         ("extractDates", FormValue.boolVal b3),
         ("detectMerchants", FormValue.boolVal b4)] :=
  c4_payload_fields validTxt (lookupCheckbox claimChecked) (by decide)

/-- C9 counterexample: clearFile run while the results panel is showing
leaves the results panel visible, so the reset does not hide the
result panel. -/
theorem c9_counterexample :
    (clearFile resultsShownState).resultsVisible = true := by
  decide

/-- C9 (corrected): after clearFile the staged file is cleared, the
file input value is emptied, the file preview is hidden and the submit
button is disabled, the Idle shape of the controller; but the results
panel keeps whatever visibility it had, because clearFile does not
touch it. -/
theorem c9_reset_effects (s : AppState) :
    (clearFile s).currentFile = none
    ∧ (clearFile s).fileInputValue = ""
    ∧ (clearFile s).filePreviewVisible = false
    ∧ (clearFile s).submitBtnDisabled = true
    ∧ (clearFile s).resultsVisible = s.resultsVisible :=
  ⟨rfl, rfl, rfl, rfl, rfl⟩

/-- Witness for C9 amended at the concrete post-upload state. -/
theorem c9_reset_effects_witness :
    (clearFile resultsShownState).currentFile = none
    ∧ (clearFile resultsShownState).resultsVisible = resultsShownState.resultsVisible :=
  ⟨(c9_reset_effects resultsShownState).1, (c9_reset_effects resultsShownState).2.2.2.2⟩

end SmartFinance
